import Mathlib

/-!
Shallow embedding of `slack.py` from the localslackirc repository.

The module defines typed domain data (Topic, Channel, Message and its
variants, Profile, User), a `Slack` facade whose `channels`,
`get_channel`, `get_channel_by_name` and `get_user` methods cache their
results, and a generator `events_iter` that reads raw envelopes from the
realtime transport, classifies them by their `type`/`subtype` fields and
yields typed events.

Embedding conventions:
- The network transport (`SlackClient`) is modelled by scripted response
  values: `ChanTransport` holds the two list responses, a function
  `String → UserResp` models `users.info`, and `RTM` scripts the outcomes
  of successive `rtm_connect` / `rtm_read` calls.
- Python exceptions become `Except` results; the error payloads mirror
  `ResponseException(response)` and `KeyError`/`KeyError(response)`.
- The mutable state of a `Slack` instance (the `lru_cache` of `channels`,
  `get_channel`, `get_channel_by_name` and the `_usercache` dict) is
  passed explicitly as `ChanState` / `UserCache`; Python's `lru_cache`
  stores only successful results, which the embedding mirrors by leaving
  the state unchanged on the error paths.
- Each stateful operation also returns the number of network calls it
  performed, so that memoization claims are statements about that count.
- The structural decoding performed by `typedload.load` is out of scope
  per the specification; envelopes therefore carry already-typed fields,
  with `Option` marking the nested payloads whose mere presence the code
  tests by indexing (`event['message']`, `event['previous_message']`,
  `event['user']`): indexing a missing one is a decode failure.
- `events_iter` is an infinite generator; it is embedded as a fuel-indexed
  run function returning the list of yielded items (`Option SlackEvent`,
  where `none` is the per-cycle marker) together with how the run ended.
-/

/-- Mirrors `class Response(NamedTuple)`: the `ok`/`headers` envelope that
every API response is first decoded into. -/
structure Response where
  ok : Bool
  headers : List (String × String)
deriving DecidableEq

/-- Mirrors `class Topic(NamedTuple)`. -/
structure Topic where
  value : String
deriving DecidableEq

/-- Mirrors `class Channel(NamedTuple)`; the Python `Set[str]` of members
is modelled as a list of user ids (no claim depends on set semantics). -/
structure Channel where
  id : String
  name_normalized : String
  purpose : Topic
  topic : Topic
  members : List String
deriving DecidableEq

/-- Mirrors the `Channel.name` property (alias of `name_normalized`). -/
def Channel.name (c : Channel) : String :=
  c.name_normalized

/-- Mirrors the `Channel.real_topic` property: `topic.value` when that
string is truthy (non-empty), else `purpose.value`. -/
def Channel.real_topic (c : Channel) : String :=
  if c.topic.value ≠ "" then c.topic.value else c.purpose.value

/-- Mirrors `class Message(NamedTuple)`. -/
structure Message where
  channel : String
  user : String
  text : String
deriving DecidableEq

/-- Mirrors `class MessageEdit(NamedTuple)`. -/
structure MessageEdit where
  previous : Message
  current : Message
deriving DecidableEq

/-- Mirrors `class MessageDelete(Message)`: structurally a Message but a
distinct type, modelled by a structure extending `Message`. -/
structure MessageDelete extends Message
deriving DecidableEq

/-- Mirrors `class UserTyping(NamedTuple)`. -/
structure UserTyping where
  channel : String
  user : String
deriving DecidableEq

/-- Mirrors `class FileDeleted(NamedTuple)`. -/
structure FileDeleted where
  file_id : String
  channel_ids : List String
deriving DecidableEq

/-- Mirrors the `SlackEvent` union; the constructor tag is what makes the
variants discriminable by type. -/
inductive SlackEvent
  | userTyping (e : UserTyping)
  | messageDelete (e : MessageDelete)
  | messageEdit (e : MessageEdit)
  | message (e : Message)
  | fileDeleted (e : FileDeleted)
deriving DecidableEq

/-- Mirrors `class Profile(NamedTuple)` with its defaults. -/
structure Profile where
  real_name : String := "noname"
  email : Option String := none
  status_text : String := ""
deriving DecidableEq

/-- Mirrors `class User(NamedTuple)`. -/
structure User where
  id : String
  name : String
  profile : Profile
  is_admin : Bool := false
deriving DecidableEq

/-- Mirrors the `User.real_name` property. -/
def User.real_name (u : User) : String :=
  u.profile.real_name

/-- Error values: `responseException r` mirrors `raise ResponseException(response)`;
`keyError r` mirrors `raise KeyError()` (payload `none`) and
`raise KeyError(response)` (payload `some r`). -/
inductive SlackErr
  | responseException (r : Response)
  | keyError (r : Option Response)
deriving DecidableEq

/-- One decoded list response of `channels.list` / `groups.list`: the
`ok`/`headers` part plus the decoded channel entries available under
`ok = true`. -/
structure ListResp where
  ok : Bool
  headers : List (String × String)
  entries : List Channel
deriving DecidableEq

/-- Scripted transport for the two channel-collection fetches. -/
structure ChanTransport where
  channelsResp : ListResp
  groupsResp : ListResp
deriving DecidableEq

/-- The caches of a `Slack` instance that back the channel lookups: the
`lru_cache` of `channels()` (at most one stored result since the method
takes no argument) and the per-argument `lru_cache` tables of
`get_channel` and `get_channel_by_name`. -/
structure ChanState where
  channelsCache : Option (List Channel)
  getChannelCache : List (String × Channel)
  getChannelByNameCache : List (String × Channel)
deriving DecidableEq

/-- The `_usercache` dict, as an association list with unique keys. -/
abbrev UserCache := List (String × User)

/-- Association-list lookup (dict membership / indexing). -/
def assocFind {α : Type} : List (String × α) → String → Option α
  | [], _ => none
  | (k2, v) :: rest, k => if k2 = k then some v else assocFind rest k

namespace Slack

/-- Mirrors `Slack.channels`: on a cache hit return the memoized list with
no network call; otherwise call `channels.list` then `groups.list`,
concatenating the decoded entries, raising `ResponseException` on the
first non-ok response (in which case nothing is cached, as `lru_cache`
does not store exceptions). The `Nat` counts `api_call` invocations. -/
def channels (t : ChanTransport) (st : ChanState) :
    Except SlackErr (List Channel) × ChanState × Nat :=
  match st.channelsCache with
  | some l => (Except.ok l, st, 0)
  | none =>
    if t.channelsResp.ok then
      if t.groupsResp.ok then
        let res := t.channelsResp.entries ++ t.groupsResp.entries
        (Except.ok res, ⟨some res, st.getChannelCache, st.getChannelByNameCache⟩, 2)
      else
        (Except.error (SlackErr.responseException ⟨t.groupsResp.ok, t.groupsResp.headers⟩), st, 2)
    else
      (Except.error (SlackErr.responseException ⟨t.channelsResp.ok, t.channelsResp.headers⟩), st, 1)

/-- Mirrors `Slack.get_channel`: `lru_cache` per id argument, then a linear
scan of `channels()`, raising `KeyError()` when no channel has the id. -/
def get_channel (t : ChanTransport) (st : ChanState) (id_ : String) :
    Except SlackErr Channel × ChanState × Nat :=
  match assocFind st.getChannelCache id_ with
  | some c => (Except.ok c, st, 0)
  | none =>
    match channels t st with
    | (Except.ok l, st2, n) =>
      match l.find? (fun c => c.id == id_) with
      | some c =>
        (Except.ok c, ⟨st2.channelsCache, (id_, c) :: st2.getChannelCache,
          st2.getChannelByNameCache⟩, n)
      | none => (Except.error (SlackErr.keyError none), st2, n)
    | (Except.error err, st2, n) => (Except.error err, st2, n)

/-- Mirrors `Slack.get_channel_by_name`: same as `get_channel` but keyed by
`c.name`. -/
def get_channel_by_name (t : ChanTransport) (st : ChanState) (nm : String) :
    Except SlackErr Channel × ChanState × Nat :=
  match assocFind st.getChannelByNameCache nm with
  | some c => (Except.ok c, st, 0)
  | none =>
    match channels t st with
    | (Except.ok l, st2, n) =>
      match l.find? (fun c => c.name == nm) with
      | some c =>
        (Except.ok c, ⟨st2.channelsCache, st2.getChannelCache,
          (nm, c) :: st2.getChannelByNameCache⟩, n)
      | none => (Except.error (SlackErr.keyError none), st2, n)
    | (Except.error err, st2, n) => (Except.error err, st2, n)

end Slack

/-- N successive calls of `Slack.channels` on the same instance: the list
of results, the final state, and the total number of `api_call`
invocations performed across all N calls. -/
def channelsCalls (t : ChanTransport) : Nat → ChanState →
    List (Except SlackErr (List Channel)) × ChanState × Nat
  | 0, st => ([], st, 0)
  | Nat.succ n, st =>
    match Slack.channels t st with
    | (r, st2, k) =>
      match channelsCalls t n st2 with
      | (rs, st3, k2) => (r :: rs, st3, k + k2)

theorem channelsCalls_cached (t : ChanTransport) (l : List Channel)
    (g1 g2 : List (String × Channel)) (m : Nat) :
    channelsCalls t m ⟨some l, g1, g2⟩ =
      (List.replicate m (Except.ok l), ⟨some l, g1, g2⟩, 0) := by
  induction m with
  | zero => rfl
  | succ n ih =>
    simp only [channelsCalls, Slack.channels, ih, List.replicate]

/-- C8: for every Channel, `real_topic` is `topic.value` when that is
non-empty, `purpose.value` when `topic.value` is empty, and in particular
the empty string when both are empty. -/
theorem real_topic_spec (c : Channel) :
    (c.topic.value ≠ "" → c.real_topic = c.topic.value) ∧
    (c.topic.value = "" → c.real_topic = c.purpose.value) ∧
    (c.topic.value = "" → c.purpose.value = "" → c.real_topic = "") := by
  refine ⟨fun h => ?_, fun h => ?_, fun h h2 => ?_⟩
  · simp [Channel.real_topic, h]
  · simp [Channel.real_topic, h]
  · simp [Channel.real_topic, h, h2]

/-- Witness for C8 at three concrete channels: topic set, topic empty with
purpose set, and both empty. -/
theorem real_topic_spec_witness :
    (Channel.mk "C1" "g" ⟨"p"⟩ ⟨"t"⟩ []).real_topic = "t" ∧
    (Channel.mk "C2" "g" ⟨"p"⟩ ⟨""⟩ []).real_topic = "p" ∧
    (Channel.mk "C3" "g" ⟨""⟩ ⟨""⟩ []).real_topic = "" :=
  ⟨(real_topic_spec _).1 (by decide),
   (real_topic_spec _).2.1 rfl,
   (real_topic_spec _).2.2 rfl rfl⟩

/-- C1: when both the channels-list and groups-list responses report
`ok = true`, every one of N+1 successive `channels()` calls on a fresh
instance returns the concatenation (channels entries first, then groups
entries), and the total number of `api_call` invocations across all the
calls is 2 — each sub-fetch is performed exactly once; later calls hit
the memoized result. -/
theorem channels_concat_memoized (t : ChanTransport) (n : Nat)
    (h1 : t.channelsResp.ok = true) (h2 : t.groupsResp.ok = true) :
    channelsCalls t (n + 1) ⟨none, [], []⟩ =
      (List.replicate (n + 1) (Except.ok (t.channelsResp.entries ++ t.groupsResp.entries)),
       ⟨some (t.channelsResp.entries ++ t.groupsResp.entries), [], []⟩, 2) := by
  have hfirst : Slack.channels t ⟨none, [], []⟩ =
      (Except.ok (t.channelsResp.entries ++ t.groupsResp.entries),
       ⟨some (t.channelsResp.entries ++ t.groupsResp.entries), [], []⟩, 2) := by
    simp [Slack.channels, h1, h2]
  simp only [channelsCalls, hfirst, channelsCalls_cached, List.replicate]

/-- Witness for C1: a concrete transport with two channels and one group,
called three times; the fetches still count 2. -/
theorem channels_concat_memoized_witness :
    channelsCalls
        ⟨⟨true, [], [⟨"C1", "one", ⟨""⟩, ⟨""⟩, []⟩, ⟨"C2", "two", ⟨""⟩, ⟨""⟩, []⟩]⟩,
         ⟨true, [], [⟨"G1", "grp", ⟨""⟩, ⟨""⟩, []⟩]⟩⟩ 3 ⟨none, [], []⟩ =
      (List.replicate 3 (Except.ok
          [⟨"C1", "one", ⟨""⟩, ⟨""⟩, []⟩, ⟨"C2", "two", ⟨""⟩, ⟨""⟩, []⟩,
           ⟨"G1", "grp", ⟨""⟩, ⟨""⟩, []⟩]),
       ⟨some [⟨"C1", "one", ⟨""⟩, ⟨""⟩, []⟩, ⟨"C2", "two", ⟨""⟩, ⟨""⟩, []⟩,
           ⟨"G1", "grp", ⟨""⟩, ⟨""⟩, []⟩], [], []⟩, 2) :=
  channels_concat_memoized _ 2 rfl rfl

/-- C10: when either sub-fetch reports `ok = false`, `channels()` raises
`ResponseException` and the instance state is left completely unchanged
(no partial result, no memoized failure), so a subsequent call with a
healthy transport re-invokes both fetches from the beginning and
succeeds with the full concatenation. -/
theorem channels_failure_not_memoized (t t2 : ChanTransport) (st : ChanState)
    (hcache : st.channelsCache = none)
    (hfail : t.channelsResp.ok = false ∨ t.groupsResp.ok = false)
    (h1 : t2.channelsResp.ok = true) (h2 : t2.groupsResp.ok = true) :
    (∃ r, (Slack.channels t st).1 = Except.error (SlackErr.responseException r)) ∧
    (Slack.channels t st).2.1 = st ∧
    Slack.channels t2 (Slack.channels t st).2.1 =
      (Except.ok (t2.channelsResp.entries ++ t2.groupsResp.entries),
       ⟨some (t2.channelsResp.entries ++ t2.groupsResp.entries),
        st.getChannelCache, st.getChannelByNameCache⟩, 2) := by
  have hstep : (Slack.channels t st).1 =
        Except.error (SlackErr.responseException ⟨t.channelsResp.ok, t.channelsResp.headers⟩) ∨
      (Slack.channels t st).1 =
        Except.error (SlackErr.responseException ⟨t.groupsResp.ok, t.groupsResp.headers⟩) := by
    rcases hfail with hf | hf
    · left
      simp [Slack.channels, hcache, hf]
    · rcases hb : t.channelsResp.ok with _ | _
      · left
        simp [Slack.channels, hcache, hb]
      · right
        simp [Slack.channels, hcache, hb, hf]
  have hstate : (Slack.channels t st).2.1 = st := by
    rcases hfail with hf | hf
    · simp [Slack.channels, hcache, hf]
    · rcases hb : t.channelsResp.ok with _ | _
      · simp [Slack.channels, hcache, hb]
      · simp [Slack.channels, hcache, hb, hf]
  refine ⟨?_, hstate, ?_⟩
  · rcases hstep with h | h
    · exact ⟨_, h⟩
    · exact ⟨_, h⟩
  · rw [hstate]
    simp [Slack.channels, hcache, h1, h2]

/-- Witness for C10: first transport whose groups fetch fails, then a
healthy transport; the second call performs both fetches again. -/
theorem channels_failure_not_memoized_witness :
    (∃ r, (Slack.channels ⟨⟨true, [], [⟨"C1", "one", ⟨""⟩, ⟨""⟩, []⟩]⟩, ⟨false, [], []⟩⟩
        ⟨none, [], []⟩).1 = Except.error (SlackErr.responseException r)) ∧
    (Slack.channels ⟨⟨true, [], [⟨"C1", "one", ⟨""⟩, ⟨""⟩, []⟩]⟩, ⟨false, [], []⟩⟩
        ⟨none, [], []⟩).2.1 = ⟨none, [], []⟩ ∧
    Slack.channels ⟨⟨true, [], [⟨"C1", "one", ⟨""⟩, ⟨""⟩, []⟩]⟩, ⟨true, [], []⟩⟩
        (Slack.channels ⟨⟨true, [], [⟨"C1", "one", ⟨""⟩, ⟨""⟩, []⟩]⟩, ⟨false, [], []⟩⟩
          ⟨none, [], []⟩).2.1 =
      (Except.ok [⟨"C1", "one", ⟨""⟩, ⟨""⟩, []⟩],
       ⟨some [⟨"C1", "one", ⟨""⟩, ⟨""⟩, []⟩], [], []⟩, 2) :=
  channels_failure_not_memoized _ _ _ rfl (Or.inr rfl) rfl rfl

/-- C9: for an id and a name absent from the successfully fetched channel
set, `get_channel` and `get_channel_by_name` raise `KeyError` (the
NotFoundError of the specification); the first failing lookup performs
the single fetch of the two collections (2 `api_call`s) and every
repeated lookup performs 0 network calls — there is never a second fetch
of the channel collections. -/
theorem get_channel_absent_notfound (t : ChanTransport) (id_ nm : String)
    (h1 : t.channelsResp.ok = true) (h2 : t.groupsResp.ok = true)
    (hid : ∀ c ∈ t.channelsResp.entries ++ t.groupsResp.entries, c.id ≠ id_)
    (hnm : ∀ c ∈ t.channelsResp.entries ++ t.groupsResp.entries, c.name ≠ nm) :
    (Slack.get_channel t ⟨none, [], []⟩ id_).1 = Except.error (SlackErr.keyError none) ∧
    (Slack.get_channel t ⟨none, [], []⟩ id_).2.2 = 2 ∧
    Slack.get_channel t (Slack.get_channel t ⟨none, [], []⟩ id_).2.1 id_ =
      (Except.error (SlackErr.keyError none),
       ⟨some (t.channelsResp.entries ++ t.groupsResp.entries), [], []⟩, 0) ∧
    Slack.get_channel_by_name t (Slack.get_channel t ⟨none, [], []⟩ id_).2.1 nm =
      (Except.error (SlackErr.keyError none),
       ⟨some (t.channelsResp.entries ++ t.groupsResp.entries), [], []⟩, 0) := by
  have hfind : (t.channelsResp.entries ++ t.groupsResp.entries).find?
      (fun c => c.id == id_) = none := by
    apply List.find?_eq_none.mpr
    intro c hc
    simp [hid c hc]
  have hfindnm : (t.channelsResp.entries ++ t.groupsResp.entries).find?
      (fun c => c.name == nm) = none := by
    apply List.find?_eq_none.mpr
    intro c hc
    simp [hnm c hc]
  have hchan : Slack.channels t ⟨none, [], []⟩ =
      (Except.ok (t.channelsResp.entries ++ t.groupsResp.entries),
       ⟨some (t.channelsResp.entries ++ t.groupsResp.entries), [], []⟩, 2) := by
    simp [Slack.channels, h1, h2]
  have hfirst : Slack.get_channel t ⟨none, [], []⟩ id_ =
      (Except.error (SlackErr.keyError none),
       ⟨some (t.channelsResp.entries ++ t.groupsResp.entries), [], []⟩, 2) := by
    simp [Slack.get_channel, assocFind, hchan, hfind]
  refine ⟨by rw [hfirst], by rw [hfirst], ?_, ?_⟩
  · rw [hfirst]
    simp [Slack.get_channel, assocFind, Slack.channels, hfind]
  · rw [hfirst]
    simp [Slack.get_channel_by_name, assocFind, Slack.channels, hfindnm]

/-- Witness for C9: one fetched channel, lookups for an absent id and an
absent name. -/
theorem get_channel_absent_notfound_witness :
    (Slack.get_channel ⟨⟨true, [], [⟨"C1", "one", ⟨""⟩, ⟨""⟩, []⟩]⟩, ⟨true, [], []⟩⟩
        ⟨none, [], []⟩ "C9").1 = Except.error (SlackErr.keyError none) ∧
    (Slack.get_channel ⟨⟨true, [], [⟨"C1", "one", ⟨""⟩, ⟨""⟩, []⟩]⟩, ⟨true, [], []⟩⟩
        ⟨none, [], []⟩ "C9").2.2 = 2 ∧
    Slack.get_channel ⟨⟨true, [], [⟨"C1", "one", ⟨""⟩, ⟨""⟩, []⟩]⟩, ⟨true, [], []⟩⟩
        (Slack.get_channel ⟨⟨true, [], [⟨"C1", "one", ⟨""⟩, ⟨""⟩, []⟩]⟩, ⟨true, [], []⟩⟩
          ⟨none, [], []⟩ "C9").2.1 "C9" =
      (Except.error (SlackErr.keyError none),
       ⟨some [⟨"C1", "one", ⟨""⟩, ⟨""⟩, []⟩], [], []⟩, 0) ∧
    Slack.get_channel_by_name ⟨⟨true, [], [⟨"C1", "one", ⟨""⟩, ⟨""⟩, []⟩]⟩, ⟨true, [], []⟩⟩
        (Slack.get_channel ⟨⟨true, [], [⟨"C1", "one", ⟨""⟩, ⟨""⟩, []⟩]⟩, ⟨true, [], []⟩⟩
          ⟨none, [], []⟩ "C9").2.1 "missing" =
      (Except.error (SlackErr.keyError none),
       ⟨some [⟨"C1", "one", ⟨""⟩, ⟨""⟩, []⟩], [], []⟩, 0) :=
  get_channel_absent_notfound _ _ _ rfl rfl (by decide) (by decide)

/-- Decoded `users.info` response: `ok`/`headers` plus the decoded user
available under `ok = true`. -/
structure UserResp where
  ok : Bool
  headers : List (String × String)
  user : User
deriving DecidableEq

/-- Mirrors `Slack.get_user`: check `_usercache` first; on a miss call
`users.info` (the `Nat` counts those calls), store and return the user on
`ok = true`, otherwise raise `KeyError(response)`. -/
def Slack.get_user (info : String → UserResp) (uc : UserCache) (id_ : String) :
    Except SlackErr User × UserCache × Nat :=
  match assocFind uc id_ with
  | some u => (Except.ok u, uc, 0)
  | none =>
    let r := info id_
    if r.ok then
      (Except.ok r.user, (id_, r.user) :: uc, 1)
    else
      (Except.error (SlackErr.keyError (some ⟨r.ok, r.headers⟩)), uc, 1)

/-- The nested `message` / `previous_message` dict of an envelope: the raw
payload omits the channel id (hence `Option`), which the normalizer
injects from the envelope before decoding it as a Message. -/
structure NestedMsg where
  channel : Option String
  user : String
  text : String
deriving DecidableEq

/-- One raw envelope from `rtm_read`, restricted to the fields `slack.py`
inspects. `type` and `subtype` model `event.get(...)` (absent key gives
`none`); the nested `message`, `previous_message` and `user` payloads are
`Option` because the code indexes them directly and a missing one is a
decode failure. The top-level `user` string and the `userPayload` field
model the same raw key `user`, whose shape differs by event kind. -/
structure Envelope where
  type : Option String
  subtype : Option String
  channel : String
  user : String
  text : String
  message : Option NestedMsg
  previous_message : Option NestedMsg
  userPayload : Option User
  file_id : String
  channel_ids : List String
deriving DecidableEq

/-- Python truthiness of `event.get('subtype')`: falsy when absent or the
empty string (the code's `not subt`). -/
def falsy : Option String → Bool
  | none => true
  | some v => v == ""

/-- Mirrors `event['message']['channel'] = event['channel']`. -/
def injectChannel (ch : String) (m : NestedMsg) : NestedMsg :=
  ⟨some ch, m.user, m.text⟩

/-- Decoding a nested payload as a Message; fails when the channel id is
missing (it never is after `injectChannel`). -/
def loadNestedMessage (m : NestedMsg) : Except Unit Message :=
  match m.channel with
  | some c => Except.ok ⟨c, m.user, m.text⟩
  | none => Except.error ()

/-- One envelope of the body of the `for event in events` loop: returns
the at-most-one yielded event together with the updated `_usercache`, or
`Except.error ()` when the code would index a missing nested payload.
The branch order and conditions mirror `slack.py` lines 218-248. -/
def handleEnvelope (uc : UserCache) (e : Envelope) :
    Except Unit (Option SlackEvent × UserCache) :=
  if e.type = some "message" ∧ falsy e.subtype = true then
    Except.ok (some (SlackEvent.message ⟨e.channel, e.user, e.text⟩), uc)
  else if e.type = some "message" ∧ e.subtype = some "message_changed" then
    match e.message, e.previous_message with
    | some m, some p =>
      match loadNestedMessage (injectChannel e.channel p),
          loadNestedMessage (injectChannel e.channel m) with
      | Except.ok prev, Except.ok cur =>
        Except.ok (some (SlackEvent.messageEdit ⟨prev, cur⟩), uc)
      | _, _ => Except.error ()
    | _, _ => Except.error ()
  else if e.type = some "message" ∧ e.subtype = some "message_deleted" then
    match e.previous_message with
    | some p =>
      match loadNestedMessage (injectChannel e.channel p) with
      | Except.ok prev => Except.ok (some (SlackEvent.messageDelete ⟨prev⟩), uc)
      | _ => Except.error ()
    | none => Except.error ()
  else if e.type = some "user_typing" then
    Except.ok (some (SlackEvent.userTyping ⟨e.channel, e.user⟩), uc)
  else if e.type = some "user_change" then
    match e.userPayload with
    | some u =>
      if (assocFind uc u.id).isSome then
        Except.ok (none, uc.filter (fun p => p.1 != u.id))
      else
        Except.ok (none, uc)
    | none => Except.error ()
  else if e.type = some "file_deleted" then
    Except.ok (some (SlackEvent.fileDeleted ⟨e.file_id, e.channel_ids⟩), uc)
  else
    Except.ok (none, uc)

/-- The whole `for event in events` loop over one read cycle: the events
yielded in order, the final `_usercache`, and whether a decode failure
aborted the loop (in Python the exception would propagate out of the
generator). -/
def processEnvelopes : UserCache → List Envelope → List SlackEvent × UserCache × Bool
  | uc, [] => ([], uc, false)
  | uc, e :: rest =>
    match handleEnvelope uc e with
    | Except.error _ => ([], uc, true)
    | Except.ok (none, uc2) => processEnvelopes uc2 rest
    | Except.ok (some ev, uc2) =>
      match processEnvelopes uc2 rest with
      | (evs, uc3, failed) => (ev :: evs, uc3, failed)

/-- The transport-failure classes caught by the read loop
(`except (BrokenPipeError, TimeoutError)`). -/
inductive TransportFailure
  | brokenPipe
  | timeoutErr
deriving DecidableEq

/-- Outcome of one `rtm_read` call. -/
inductive ReadResult
  | ok (evs : List Envelope)
  | fail (e : TransportFailure)
deriving DecidableEq

/-- How a finite run of the generator ended: `suspended` means the fuel or
the scripted transport ran out while the loop was still alive (the
remaining scripts and the `_usercache` are carried for inspection);
`endedNoConnect` means the initial `rtm_connect` returned false and the
generator returned without yielding; `raised e` means a failed
re-handshake re-raised the original transport failure; `decodeError`
means an envelope handler indexed a missing payload. -/
inductive RunEnd
  | suspended (connects : List Bool) (reads : List ReadResult) (uc : UserCache)
  | endedNoConnect
  | raised (e : TransportFailure)
  | decodeError
deriving DecidableEq

/-- True exactly for the `raised` outcome. -/
def RunEnd.isRaised : RunEnd → Bool
  | RunEnd.raised _ => true
  | _ => false

/-- The `while True` read loop of `events_iter`, run for `fuel` read
cycles against scripted connect outcomes `cs` and read outcomes `rs`:
each cycle is one `rtm_read` (on a transport failure, one `rtm_connect`
re-handshake attempt, re-raising on failure and continuing with
`events = []` on success), then the envelope loop, then `yield None`. -/
def runCycles : Nat → List Bool → List ReadResult → UserCache →
    List (Option SlackEvent) × RunEnd
  | 0, cs, rs, uc => ([], RunEnd.suspended cs rs uc)
  | Nat.succ fuel, cs, rs, uc =>
    match rs with
    | [] => ([], RunEnd.suspended cs [] uc)
    | ReadResult.ok evs :: rs2 =>
      match processEnvelopes uc evs with
      | (outs, uc2, failed) =>
        if failed then
          (outs.map some, RunEnd.decodeError)
        else
          match runCycles fuel cs rs2 uc2 with
          | (rest, e) => (outs.map some ++ none :: rest, e)
    | ReadResult.fail e :: rs2 =>
      match cs with
      | [] => ([], RunEnd.suspended [] (ReadResult.fail e :: rs2) uc)
      | b :: cs2 =>
        if b then
          match runCycles fuel cs2 rs2 uc with
          | (rest, e2) => (none :: rest, e2)
        else
          ([], RunEnd.raised e)

/-- Mirrors `Slack.events_iter`: the initial `rtm_connect` guards the read
loop; when it returns false the generator body ends at once, yielding
nothing and raising nothing. -/
def Slack.events_iter (fuel : Nat) (connects : List Bool) (reads : List ReadResult)
    (uc : UserCache) : List (Option SlackEvent) × RunEnd :=
  match connects with
  | [] => ([], RunEnd.suspended [] reads uc)
  | b :: cs =>
    if b then runCycles fuel cs reads uc else ([], RunEnd.endedNoConnect)

theorem assocFind_filter_self {α : Type} (l : List (String × α)) (k : String) :
    assocFind (l.filter (fun p => p.1 != k)) k = none := by
  induction l with
  | nil => rfl
  | cons hd tl ih =>
    obtain ⟨k2, v⟩ := hd
    by_cases h : k2 = k
    · simp [List.filter_cons, h, ih]
    · simp [List.filter_cons, h, assocFind, ih]

/-- C5: a `message`/`message_changed` envelope with channel `C`, nested
message `{user := U, text := Tnew}` and nested previous message
`{user := U, text := Told}` (whatever channel ids those nested payloads
carried) yields a MessageEdit whose previous is `Message C U Told` and
whose current is `Message C U Tnew`, leaving the user cache alone. -/
theorem message_changed_emits_edit (uc : UserCache) (e : Envelope)
    (C U Tnew Told : String)
    (ht : e.type = some "message") (hs : e.subtype = some "message_changed")
    (hch : e.channel = C)
    (hm : ∃ c0, e.message = some ⟨c0, U, Tnew⟩)
    (hp : ∃ c0, e.previous_message = some ⟨c0, U, Told⟩) :
    handleEnvelope uc e =
      Except.ok (some (SlackEvent.messageEdit ⟨⟨C, U, Told⟩, ⟨C, U, Tnew⟩⟩), uc) := by
  obtain ⟨c0, hm⟩ := hm
  obtain ⟨c1, hp⟩ := hp
  simp [handleEnvelope, ht, hs, hch, hm, hp, falsy, injectChannel, loadNestedMessage]

/-- Witness for C5 at the specification's concrete instance. -/
theorem message_changed_emits_edit_witness :
    handleEnvelope []
        ⟨some "message", some "message_changed", "C1", "", "",
         some ⟨none, "U1", "new"⟩, some ⟨none, "U1", "old"⟩, none, "", []⟩ =
      Except.ok (some (SlackEvent.messageEdit
        ⟨⟨"C1", "U1", "old"⟩, ⟨"C1", "U1", "new"⟩⟩), []) :=
  message_changed_emits_edit [] _ "C1" "U1" "new" "old" rfl rfl rfl ⟨none, rfl⟩ ⟨none, rfl⟩

/-- C6: a `message`/`message_deleted` envelope with channel `C` and nested
previous message `{user := U, text := T}` yields a MessageDelete carrying
`channel = C, user = U, text = T`; the MessageDelete variant is distinct
from the plain Message variant, so a consumer discriminates by type
alone. -/
theorem message_deleted_emits_delete (uc : UserCache) (e : Envelope)
    (C U T : String)
    (ht : e.type = some "message") (hs : e.subtype = some "message_deleted")
    (hch : e.channel = C)
    (hp : ∃ c0, e.previous_message = some ⟨c0, U, T⟩) :
    handleEnvelope uc e =
      Except.ok (some (SlackEvent.messageDelete ⟨⟨C, U, T⟩⟩), uc) ∧
    ∀ m : Message, SlackEvent.messageDelete ⟨⟨C, U, T⟩⟩ ≠ SlackEvent.message m := by
  obtain ⟨c0, hp⟩ := hp
  constructor
  · simp [handleEnvelope, ht, hs, hch, hp, falsy, injectChannel, loadNestedMessage]
  · intro m h
    cases h

/-- Witness for C6 at the specification's concrete instance. -/
theorem message_deleted_emits_delete_witness :
    handleEnvelope []
        ⟨some "message", some "message_deleted", "C2", "", "",
         none, some ⟨none, "U2", "gone"⟩, none, "", []⟩ =
      Except.ok (some (SlackEvent.messageDelete ⟨⟨"C2", "U2", "gone"⟩⟩), []) ∧
    ∀ m : Message,
      SlackEvent.messageDelete ⟨⟨"C2", "U2", "gone"⟩⟩ ≠ SlackEvent.message m :=
  message_deleted_emits_delete [] _ "C2" "U2" "gone" rfl rfl rfl ⟨none, rfl⟩

/-- C7: a `user_change` envelope decoding to user `u` emits no event; when
`u.id` is cached the entry is removed — the lookup on the evicted cache
misses, so the next `get_user u.id` performs exactly one network fetch —
and when `u.id` is not cached the cache is left unchanged (and the
handler itself touches no transport at all, so it causes no fetch). -/
theorem user_change_evicts_cache (uc : UserCache) (e : Envelope) (u : User)
    (info : String → UserResp)
    (ht : e.type = some "user_change") (hu : e.userPayload = some u) :
    ((assocFind uc u.id).isSome = true →
      handleEnvelope uc e = Except.ok (none, uc.filter (fun p => p.1 != u.id)) ∧
      assocFind (uc.filter (fun p => p.1 != u.id)) u.id = none ∧
      (Slack.get_user info (uc.filter (fun p => p.1 != u.id)) u.id).2.2 = 1) ∧
    ((assocFind uc u.id).isSome = false →
      handleEnvelope uc e = Except.ok (none, uc)) := by
  have hmiss : assocFind (uc.filter (fun p => p.1 != u.id)) u.id = none :=
    assocFind_filter_self uc u.id
  constructor
  · intro hhit
    refine ⟨?_, hmiss, ?_⟩
    · simp [handleEnvelope, ht, hu, hhit]
    · simp only [Slack.get_user, hmiss]
      split <;> rfl
  · intro hmiss2
    simp [handleEnvelope, ht, hu, hmiss2]

/-- Witness for C7: cache holding users u1 and u2; a `user_change` for u1
evicts it (next `get_user` fetches once), and one for an uncached id u3
leaves the cache unchanged. -/
theorem user_change_evicts_cache_witness :
    (handleEnvelope [("u1", ⟨"u1", "alice", ⟨"a", none, ""⟩, false⟩),
          ("u2", ⟨"u2", "bob", ⟨"b", none, ""⟩, false⟩)]
        ⟨some "user_change", none, "", "", "", none, none,
         some ⟨"u1", "alice", ⟨"a2", none, ""⟩, false⟩, "", []⟩ =
      Except.ok (none, [("u2", ⟨"u2", "bob", ⟨"b", none, ""⟩, false⟩)]) ∧
      assocFind ([("u2", ⟨"u2", "bob", ⟨"b", none, ""⟩, false⟩)] : UserCache) "u1" = none ∧
      (Slack.get_user (fun _ => ⟨true, [], ⟨"u1", "alice", ⟨"a2", none, ""⟩, false⟩⟩)
        [("u2", ⟨"u2", "bob", ⟨"b", none, ""⟩, false⟩)] "u1").2.2 = 1) ∧
    handleEnvelope [("u2", ⟨"u2", "bob", ⟨"b", none, ""⟩, false⟩)]
        ⟨some "user_change", none, "", "", "", none, none,
         some ⟨"u3", "carol", ⟨"c", none, ""⟩, false⟩, "", []⟩ =
      Except.ok (none, [("u2", ⟨"u2", "bob", ⟨"b", none, ""⟩, false⟩)]) := by
  constructor
  · have h := (user_change_evicts_cache
        [("u1", ⟨"u1", "alice", ⟨"a", none, ""⟩, false⟩),
         ("u2", ⟨"u2", "bob", ⟨"b", none, ""⟩, false⟩)]
        ⟨some "user_change", none, "", "", "", none, none,
         some ⟨"u1", "alice", ⟨"a2", none, ""⟩, false⟩, "", []⟩
        ⟨"u1", "alice", ⟨"a2", none, ""⟩, false⟩
        (fun _ => ⟨true, [], ⟨"u1", "alice", ⟨"a2", none, ""⟩, false⟩⟩)
        rfl rfl).1 (by decide)
    exact ⟨h.1, h.2.1, h.2.2⟩
  · exact (user_change_evicts_cache
        [("u2", ⟨"u2", "bob", ⟨"b", none, ""⟩, false⟩)]
        ⟨some "user_change", none, "", "", "", none, none,
         some ⟨"u3", "carol", ⟨"c", none, ""⟩, false⟩, "", []⟩
        ⟨"u3", "carol", ⟨"c", none, ""⟩, false⟩
        (fun _ => ⟨true, [], ⟨"u3", "carol", ⟨"c", none, ""⟩, false⟩⟩)
        rfl rfl).2 (by decide)

/-- C2: when a read in the streaming loop raises a transport failure `e`,
exactly one re-handshake attempt is consumed from the connect script: if
it succeeds the loop yields the cycle marker and continues with the
remaining reads of the recovered connection (same cache, remaining
connect script untouched), and if it fails the original failure `e` is
re-raised and the stream terminates with no further output. -/
theorem transport_failure_one_rehandshake (fuel : Nat) (e : TransportFailure)
    (cs : List Bool) (rs : List ReadResult) (uc : UserCache) :
    runCycles (fuel + 1) (true :: cs) (ReadResult.fail e :: rs) uc =
      (none :: (runCycles fuel cs rs uc).1, (runCycles fuel cs rs uc).2) ∧
    runCycles (fuel + 1) (false :: cs) (ReadResult.fail e :: rs) uc =
      ([], RunEnd.raised e) := by
  constructor
  · simp [runCycles]
  · simp [runCycles]

/-- C3 counterexample: with the initial `rtm_connect` scripted to return
false, `events_iter` produces no items and ends with `endedNoConnect`,
which is not a raised failure — the generator returns silently instead of
raising the handshake failure to the caller. -/
theorem initial_connect_failure_counterexample :
    Slack.events_iter 3 [false] [ReadResult.ok []] [] =
      ([], RunEnd.endedNoConnect) ∧
    RunEnd.isRaised RunEnd.endedNoConnect = false :=
  ⟨rfl, rfl⟩

/-- C3 amended: if the initial handshake fails before the stream ever
reaches the streaming loop, the event sequence terminates immediately,
yielding no items and raising no failure to the caller. -/
theorem initial_connect_failure_silent_end (fuel : Nat) (cs : List Bool)
    (rs : List ReadResult) (uc : UserCache) :
    Slack.events_iter fuel (false :: cs) rs uc = ([], RunEnd.endedNoConnect) ∧
    RunEnd.isRaised RunEnd.endedNoConnect = false := by
  exact ⟨by simp [Slack.events_iter], rfl⟩

/-- C4: a read cycle whose envelopes all decode emits exactly the cycle's
typed events (none of which is the absent-value marker) followed by
exactly one `none` marker, and only then the continuation of the next
read; a cycle whose read failed but whose recovery handshake succeeded
likewise contributes exactly one `none` marker before the next read. -/
theorem read_cycle_single_marker (fuel : Nat) (cs : List Bool)
    (rs : List ReadResult) (uc : UserCache) (evs : List Envelope)
    (hok : (processEnvelopes uc evs).2.2 = false) :
    runCycles (fuel + 1) cs (ReadResult.ok evs :: rs) uc =
      ((processEnvelopes uc evs).1.map some ++
        none :: (runCycles fuel cs rs (processEnvelopes uc evs).2.1).1,
       (runCycles fuel cs rs (processEnvelopes uc evs).2.1).2) ∧
    (∀ x ∈ (processEnvelopes uc evs).1.map some, x ≠ none) ∧
    runCycles (fuel + 1) (true :: cs)
        (ReadResult.fail TransportFailure.brokenPipe :: rs) uc =
      (none :: (runCycles fuel cs rs uc).1, (runCycles fuel cs rs uc).2) := by
  refine ⟨?_, ?_, by simp [runCycles]⟩
  · rcases hpe : processEnvelopes uc evs with ⟨outs, uc2, failed⟩
    rw [hpe] at hok
    simp only at hok
    subst hok
    simp [runCycles, hpe]
  · intro x hx
    rcases List.mem_map.mp hx with ⟨a, _, ha⟩
    rw [← ha]
    simp

/-- Witness for C4: a cycle carrying one plain message envelope and one
unrecognized envelope, followed by one more scripted read. -/
theorem read_cycle_single_marker_witness :
    (processEnvelopes []
        [⟨some "message", none, "C1", "U1", "hi", none, none, none, "", []⟩,
         ⟨some "hello", none, "", "", "", none, none, none, "", []⟩]).2.2 = false ∧
    runCycles 2 [] [ReadResult.ok
        [⟨some "message", none, "C1", "U1", "hi", none, none, none, "", []⟩,
         ⟨some "hello", none, "", "", "", none, none, none, "", []⟩],
        ReadResult.ok []] [] =
      ((processEnvelopes []
          [⟨some "message", none, "C1", "U1", "hi", none, none, none, "", []⟩,
           ⟨some "hello", none, "", "", "", none, none, none, "", []⟩]).1.map some ++
        none :: (runCycles 1 [] [ReadResult.ok []]
          (processEnvelopes []
            [⟨some "message", none, "C1", "U1", "hi", none, none, none, "", []⟩,
             ⟨some "hello", none, "", "", "", none, none, none, "", []⟩]).2.1).1,
       (runCycles 1 [] [ReadResult.ok []]
          (processEnvelopes []
            [⟨some "message", none, "C1", "U1", "hi", none, none, none, "", []⟩,
             ⟨some "hello", none, "", "", "", none, none, none, "", []⟩]).2.1).2) :=
  ⟨rfl,
   (read_cycle_single_marker 1 [] [ReadResult.ok []] []
      [⟨some "message", none, "C1", "U1", "hi", none, none, none, "", []⟩,
       ⟨some "hello", none, "", "", "", none, none, none, "", []⟩] rfl).1⟩
